import Mathlib

/-!
Shallow embedding of the rule-evaluation engine of `src/email_processor.py`
(class `EmailRuleProcessor`): condition evaluation, date-condition
evaluation, rule combination, and the action dispatcher.

Modelling conventions, in one place:

* Python strings are Lean `String`; `str.lower()` / `str.upper()` are
  `pyLower` / `pyUpper` (character-wise case mapping, as in Python for the
  ASCII rule/field names the program uses); the Python substring test
  `a in b` is `strOccurs a b`.
* A JSON rule file stores `value` either as a string or as a number;
  `JsonVal` has exactly those two shapes.  Dict entries that may be absent
  are `Option` fields, read with the same defaults as the source's
  `dict.get(key, default)` calls.
* Timestamps are instants on an integer time line measured in days
  (`timedelta(days=v)` is the integer `v`); the current time is an explicit
  parameter `now`.  The source computes `now` with the same timezone
  awareness as the stored timestamp (line 203), so both sides of every
  comparison denote instants on the one time line and a single `now`
  parameter is faithful.
* A Python expression that raises an uncaught exception is modelled by
  `Option.none`; `some b` is an ordinary boolean return.  In particular
  `timedelta(days=value)` with a non-numeric `value` raises `TypeError`
  (lines 206/208 sit outside every `try`), which the embedding records as
  `none`.
* `dateReceived` (`DateReceived`) is either missing (`None` in the row),
  a datetime at some instant, or a string whose `datetime.fromisoformat`
  result is abstracted as `Option Int` (`none` = the parse raised, caught
  at lines 197-200 and turned into `False`).  The source's falsiness check
  `if not date_received` returns `False` for a missing value; an empty
  string is also falsy, and is subsumed by the unparsable-string case
  since `fromisoformat` rejects the empty string as well.
* The Gmail service is a response oracle `Provider`: `getLabels` is
  `users().messages().get(...)` restricted to its `labelIds` field and
  `modifyOutcome` is `users().messages().modify(...)`; an `Except.error`
  models the call raising `HttpError`.  Each dispatcher run also returns
  the trace of calls it issued (`GmailCall`); a modify body that omits
  `addLabelIds` or `removeLabelIds` is traced with `[]` for that set.
-/

/-- Character-wise lower-casing, Python `str.lower()` on the ASCII names
the engine compares. -/
def pyLower (s : String) : String := ⟨s.data.map Char.toLower⟩

/-- Character-wise upper-casing, Python `str.upper()` (used on mailbox
names in `move_message`, line 338). -/
def pyUpper (s : String) : String := ⟨s.data.map Char.toUpper⟩

/-- Does `needle` match at the head of `hay`? (helper for the Python
substring test). -/
def leadMatch : List Char → List Char → Bool
  | [], _ => true
  | _ :: _, [] => false
  | a :: as, b :: bs => a == b && leadMatch as bs

/-- Does `needle` occur contiguously inside `hay`? -/
def occursIn (needle : List Char) : List Char → Bool
  | [] => leadMatch needle []
  | b :: t => leadMatch needle (b :: t) || occursIn needle t

/-- Python `needle in hay` on strings: contiguous substring test (the
empty needle occurs in every string). -/
def strOccurs (needle hay : String) : Bool := occursIn needle.data hay.data

/-- A JSON condition `value`: the rule files store either a string or a
number here. -/
inductive JsonVal where
  | str (s : String)
  | num (n : Int)
deriving DecidableEq, Repr

/-- Python `str(value)` for the two JSON value shapes. -/
def JsonVal.toStr : JsonVal → String
  | .str s => s
  | .num n => toString n

/-- The `date_received` column of an email row: SQL `NULL` (`missing`), a
datetime at instant `t` (`dtime t`), or a string whose
`datetime.fromisoformat` result is `parsed` (`none` = the parse raised). -/
inductive DateReceived where
  | missing
  | dtime (t : Int)
  | dstr (parsed : Option Int)
deriving DecidableEq, Repr

/-- An email row as `evaluate_condition` reads it.  `sender`, `recipient`
and `subject` are written as strings by `gmail_fetch.py` (lines 331-333,
with string defaults), so they are plain `String` here; the two bodies may
be `NULL` and the source guards them with `or ''` (lines 152-153). -/
structure Email where
  sender : String := ""
  recipient : String := ""
  subject : String := ""
  body_text : Option String := Option.none
  body_html : Option String := Option.none
  date_received : DateReceived := DateReceived.missing
  gmail_message_id : Option String := Option.none
deriving DecidableEq, Repr

/-- A condition dict `{field, predicate, value, unit}`; every key may be
absent, and the source reads each with `condition.get(key, default)`. -/
structure Condition where
  field : Option String := Option.none
  predicate : Option String := Option.none
  value : Option JsonVal := Option.none
  unit : Option String := Option.none
deriving DecidableEq, Repr

/-- An action dict `{type, mailbox}` as `execute_action` reads it (the
source calls these simply actions; `Action` is taken by the ambient
library). -/
structure RuleAction where
  type : Option String := Option.none
  mailbox : Option String := Option.none
deriving DecidableEq, Repr

/-- A rule dict `{description, predicate, conditions, actions}`; an absent
`conditions`/`actions` key reads as `[]` (lines 236, 438), so those two
are plain lists. -/
structure Rule where
  description : Option String := Option.none
  predicate : Option String := Option.none
  conditions : List Condition := []
  actions : List RuleAction := []

/-- Resolution of `date_received` to an instant (lines 191-200): `none`
means the evaluator returns `False` there (value missing, or string parse
raised, both caught locally). -/
def dateOf : DateReceived → Option Int
  | DateReceived.missing => Option.none
  | DateReceived.dtime t => some t
  | DateReceived.dstr parsed => parsed

/-- Outcome of the threshold computation of lines 205-211. -/
inductive ThresholdResult where
  | ok (t : Int)
  | unknownUnit
  | typeError
deriving DecidableEq, Repr

/-- Lines 205-211: `threshold = now - timedelta(days=value)` for unit
`days`, `now - timedelta(days=value * 30)` for unit `months`, and a
warning plus `False` for any other unit.  `timedelta(days=value)` raises
`TypeError` when `value` is a string (for `months` the intervening
`value * 30` is Python string repetition, and the `timedelta` call still
raises), recorded as `typeError`. -/
def threshold_calc (value : JsonVal) (unit : String) (now : Int) : ThresholdResult :=
  if unit == "days" then
    match value with
    | JsonVal.num v => ThresholdResult.ok (now - v)
    | JsonVal.str _ => ThresholdResult.typeError
  else if unit == "months" then
    match value with
    | JsonVal.num v => ThresholdResult.ok (now - v * 30)
    | JsonVal.str _ => ThresholdResult.typeError
  else ThresholdResult.unknownUnit

/-- `EmailRuleProcessor.evaluate_date_condition` (lines 176-222).
`some b` is the returned boolean; `none` is an uncaught exception. -/
def evaluate_date_condition (c : Condition) (e : Email) (now : Int) : Option Bool :=
  let predicate := pyLower (c.predicate.getD "")
  let value := c.value.getD (JsonVal.num 0)
  let unit := pyLower (c.unit.getD "days")
  match dateOf e.date_received with
  | Option.none => some false
  | Option.some date_received =>
    match threshold_calc value unit now with
    | ThresholdResult.unknownUnit => some false
    | ThresholdResult.typeError => Option.none
    | ThresholdResult.ok threshold =>
      if predicate == "less_than" then some (decide (date_received > threshold))
      else if predicate == "greater_than" then some (decide (date_received < threshold))
      else some false

/-- The string-predicate block of lines 161-174: substring or equality
tests between the already lower-cased field text and the lower-cased
`str(value)`, with `not_contains`/`not_equals` accepted as alternative
spellings and a warning plus `False` for an unknown predicate. -/
def string_predicates (predicate : String) (value : JsonVal) (email_value : String) :
    Option Bool :=
  let value_lower := pyLower value.toStr
  if predicate == "contains" then some (strOccurs value_lower email_value)
  else if predicate == "does_not_contain" || predicate == "not_contains" then
    some (!(strOccurs value_lower email_value))
  else if predicate == "equals" then some (email_value == value_lower)
  else if predicate == "does_not_equal" || predicate == "not_equals" then
    some (email_value != value_lower)
  else some false

/-- `EmailRuleProcessor.evaluate_condition` (lines 126-174): field
dispatch in source order, then the string predicates on the lower-cased
field text and lower-cased `str(value)`; `date_received` delegates to the
date evaluator.  `some b` is the returned boolean; `none` is an uncaught
exception. -/
def evaluate_condition (c : Condition) (e : Email) (now : Int) : Option Bool :=
  let field := pyLower (c.field.getD "")
  let predicate := pyLower (c.predicate.getD "")
  let value := c.value.getD (JsonVal.str "")
  if field == "from" then string_predicates predicate value (pyLower e.sender)
  else if field == "to" then string_predicates predicate value (pyLower e.recipient)
  else if field == "subject" then string_predicates predicate value (pyLower e.subject)
  else if field == "message" || field == "body" then
    string_predicates predicate value
      (pyLower ((e.body_text.getD "") ++ " " ++ (e.body_html.getD "")))
  else if field == "date_received" then evaluate_date_condition c e now
  else some false

/-- The list comprehension of line 241: evaluate every condition in order;
an exception in any of them propagates (stops the whole list). -/
def eval_conditions (cs : List Condition) (e : Email) (now : Int) : Option (List Bool) :=
  match cs with
  | [] => some []
  | c :: rest =>
    match evaluate_condition c e now with
    | Option.none => Option.none
    | Option.some b => (eval_conditions rest e now).map (fun bs => b :: bs)

/-- `EmailRuleProcessor.evaluate_rule` (lines 224-249): empty condition
list never matches; otherwise combine all condition results with `all`,
`any`, or fail closed on an unknown combination predicate. -/
def evaluate_rule (r : Rule) (e : Email) (now : Int) : Option Bool :=
  let predicate := pyLower (r.predicate.getD "all")
  let conditions := r.conditions
  if conditions.isEmpty then some false
  else
    match eval_conditions conditions e now with
    | Option.none => Option.none
    | Option.some results =>
      if predicate == "all" then some (results.all id)
      else if predicate == "any" then some (results.any id)
      else some false

/-- A call the dispatcher issues against the Gmail API: fetching a
message's labels, or a `modify` with its `addLabelIds`/`removeLabelIds`
body (an omitted body key is traced as `[]`). -/
inductive GmailCall where
  | getMsg (id : String)
  | modify (id : String) (addLabelIds removeLabelIds : List String)
deriving DecidableEq, Repr

/-- The Gmail service as a response oracle: what each call would return
for this run; `Except.error` models the call raising `HttpError`.  The
source reuses one service handle for every call. -/
structure Provider where
  getLabels : String → Except String (List String)
  modifyOutcome : String → List String → List String → Except String Unit

/-- `EmailRuleProcessor.mark_as_read` (lines 291-303): one `modify`
removing `UNREAD`; its own `try` turns a raising call into `False`.
Returns the success flag and the issued-call trace. -/
def mark_as_read (gmail_message_id : String) (p : Provider) : Bool × List GmailCall :=
  let call := GmailCall.modify gmail_message_id [] ["UNREAD"]
  match p.modifyOutcome gmail_message_id [] ["UNREAD"] with
  | Except.ok _ => (true, [call])
  | Except.error _ => (false, [call])

/-- `EmailRuleProcessor.mark_as_unread` (lines 305-317): one `modify`
adding `UNREAD`, failures caught locally. -/
def mark_as_unread (gmail_message_id : String) (p : Provider) : Bool × List GmailCall :=
  let call := GmailCall.modify gmail_message_id ["UNREAD"] []
  match p.modifyOutcome gmail_message_id ["UNREAD"] [] with
  | Except.ok _ => (true, [call])
  | Except.error _ => (false, [call])

/-- The conflicting-label policy of lines 341-345: the labels the move
removes, computed from the upper-cased target and the current label
list. -/
def removePolicy (target : String) (current_labels : List String) : List String :=
  if target == "TRASH" then current_labels.filter (fun l => l == "INBOX" || l == "SPAM")
  else if target == "INBOX" then current_labels.filter (fun l => l == "TRASH" || l == "SPAM")
  else []

/-- `EmailRuleProcessor.move_message` (lines 319-360): fetch the current
labels, add the upper-cased mailbox, remove the conflicting labels per
the TRASH/INBOX policy table, and issue a single `modify`; any raising
call is caught locally and yields `False`. -/
def move_message (gmail_message_id : String) (mailbox : String) (p : Provider) :
    Bool × List GmailCall :=
  match p.getLabels gmail_message_id with
  | Except.error _ => (false, [GmailCall.getMsg gmail_message_id])
  | Except.ok current_labels =>
    let add_labels := [pyUpper mailbox]
    let remove_labels := removePolicy (pyUpper mailbox) current_labels
    let call := GmailCall.modify gmail_message_id add_labels remove_labels
    match p.modifyOutcome gmail_message_id add_labels remove_labels with
    | Except.ok _ => (true, [GmailCall.getMsg gmail_message_id, call])
    | Except.error _ => (false, [GmailCall.getMsg gmail_message_id, call])

/-- Python falsiness of the `gmail_message_id` slot (line 265 checks
`if not gmail_message_id`): absent (`None`) or the empty string. -/
def noMessageId : Option String → Bool
  | Option.none => true
  | Option.some s => s.isEmpty

/-- `EmailRuleProcessor.execute_action` (lines 251-289): dispatch on the
lower-cased action type; a missing message id or an unknown type is
reported as `False` without any provider call, and the surrounding
`try`/`except` keeps every provider failure local to this action. -/
def execute_action (a : RuleAction) (e : Email) (p : Provider) : Bool × List GmailCall :=
  let action_type := pyLower (a.type.getD "")
  if noMessageId e.gmail_message_id then (false, [])
  else
    let gmail_message_id := (e.gmail_message_id.getD "")
    if action_type == "mark_read" || action_type == "mark_as_read" then
      mark_as_read gmail_message_id p
    else if action_type == "mark_unread" || action_type == "mark_as_unread" then
      mark_as_unread gmail_message_id p
    else if action_type == "move" then
      move_message gmail_message_id (a.mailbox.getD "INBOX") p
    else (false, [])

/-- The action loop of `process_emails` (lines 438-441): every action of
the matched rule is attempted in order, each through `execute_action`;
one action's failure never removes the later actions from the loop. -/
def run_actions (actions : List RuleAction) (e : Email) (p : Provider) :
    List (Bool × List GmailCall) :=
  actions.map (fun a => execute_action a e p)

/-- State-passing form of a single condition evaluation: the source only
ever reads the email dict (`email.get`, lines 144-156), so the evaluation
step returns the message unchanged next to its result. -/
def evaluate_condition_st (c : Condition) (now : Int) (e : Email) :
    Option Bool × Email :=
  (evaluate_condition c e now, e)

/-- State-passing form of the condition list comprehension, threading the
message through every evaluation step. -/
def eval_conditions_st (cs : List Condition) (now : Int) (e : Email) :
    Option (List Bool) × Email :=
  match cs with
  | [] => (some [], e)
  | c :: rest =>
    match evaluate_condition_st c now e with
    | (Option.none, e1) => (Option.none, e1)
    | (Option.some b, e1) =>
      match eval_conditions_st rest now e1 with
      | (rs, e2) => (rs.map (fun bs => b :: bs), e2)

/-- State-passing form of `evaluate_rule`, threading the message through
the empty check, every condition, and the combination step. -/
def evaluate_rule_st (r : Rule) (now : Int) (e : Email) : Option Bool × Email :=
  if r.conditions.isEmpty then (some false, e)
  else
    match eval_conditions_st r.conditions now e with
    | (Option.none, e1) => (Option.none, e1)
    | (Option.some results, e1) =>
      let predicate := pyLower (r.predicate.getD "all")
      if predicate == "all" then (some (results.all id), e1)
      else if predicate == "any" then (some (results.any id), e1)
      else (some false, e1)

/-! Concrete rule-file fragments and provider oracles used by the
scenario parts of the theorems below. -/

/-- A condition that is true of every message: every subject contains the
empty string. -/
def condTrue : Condition :=
  { field := some "subject", predicate := some "contains", value := some (JsonVal.str "") }

/-- A condition that is false on the scenario message (empty subject does
not contain `"x"`). -/
def condFalse : Condition :=
  { field := some "subject", predicate := some "contains", value := some (JsonVal.str "x") }

/-- The two-condition scenario rule with combination predicate `all`. -/
def ruleAllTF : Rule := { predicate := some "all", conditions := [condTrue, condFalse] }

/-- The two-condition scenario rule with combination predicate `any`. -/
def ruleAnyTF : Rule := { predicate := some "any", conditions := [condTrue, condFalse] }

/-- A rule with an empty condition list and an unrecognized combination
predicate. -/
def ruleNoConds : Rule := { predicate := some "weird" }

/-- Date condition `less_than 1 day`. -/
def condLt1 : Condition :=
  { field := some "date_received", predicate := some "less_than",
    value := some (JsonVal.num 1), unit := some "days" }

/-- Date condition `greater_than 30 days`. -/
def condGt30 : Condition :=
  { field := some "date_received", predicate := some "greater_than",
    value := some (JsonVal.num 30), unit := some "days" }

/-- Date condition `less_than 30 days`. -/
def condLt30 : Condition :=
  { field := some "date_received", predicate := some "less_than",
    value := some (JsonVal.num 30), unit := some "days" }

/-- A date condition whose `value` is the string `"30"`, as a JSON rule
file may well contain: `timedelta(days="30")` raises `TypeError`. -/
def condStrDate : Condition :=
  { field := some "date_received", predicate := some "less_than",
    value := some (JsonVal.str "30"), unit := some "days" }

/-- A date condition with an unrecognized predicate and a string value. -/
def condBadPred : Condition :=
  { field := some "date_received", predicate := some "frobnicate",
    value := some (JsonVal.str "7"), unit := some "days" }

/-- Condition `subject contains ""` (the empty-needle boundary case). -/
def emptyContains : Condition :=
  { field := some "subject", predicate := some "contains", value := some (JsonVal.str "") }

/-- Condition `subject does_not_contain ""`. -/
def emptyNotContains : Condition :=
  { field := some "subject", predicate := some "does_not_contain",
    value := some (JsonVal.str "") }

/-- A provider on which every call succeeds and the scenario message
carries labels `INBOX` and `UNREAD`. -/
def provInboxUnread : Provider :=
  { getLabels := fun _ => Except.ok ["INBOX", "UNREAD"],
    modifyOutcome := fun _ _ _ => Except.ok () }

/-- A provider on which every call raises `HttpError`. -/
def provAllFail : Provider :=
  { getLabels := fun _ => Except.error "HttpError",
    modifyOutcome := fun _ _ _ => Except.error "HttpError" }

/-! Helper lemmas about the condition-list evaluator. -/

/-- If every condition of the list evaluates to a boolean, the whole list
comprehension does. -/
theorem eval_conditions_isSome (cs : List Condition) (e : Email) (now : Int)
    (h : ∀ c ∈ cs, (evaluate_condition c e now).isSome) :
    ∃ bs, eval_conditions cs e now = some bs := by
  induction cs with
  | nil => exact ⟨[], rfl⟩
  | cons c rest ih =>
    obtain ⟨b, hb⟩ := Option.isSome_iff_exists.mp (h c (List.mem_cons_self c rest))
    obtain ⟨bs, hbs⟩ := ih (fun x hx => h x (List.mem_cons_of_mem c hx))
    exact ⟨b :: bs, by simp [eval_conditions, hb, hbs]⟩

/-- The conjunction of an evaluated condition list is true exactly when
every condition evaluated to true. -/
theorem eval_conditions_all_iff (cs : List Condition) (e : Email) (now : Int)
    (bs : List Bool) (h : eval_conditions cs e now = some bs) :
    (bs.all id = true ↔ ∀ c ∈ cs, evaluate_condition c e now = some true) := by
  induction cs generalizing bs with
  | nil =>
    simp only [eval_conditions, Option.some.injEq] at h
    subst h
    simp
  | cons c rest ih =>
    simp only [eval_conditions] at h
    cases hc : evaluate_condition c e now with
    | none => rw [hc] at h; exact absurd h (by simp)
    | some b =>
      rw [hc] at h
      cases hr : eval_conditions rest e now with
      | none => rw [hr] at h; exact absurd h (by simp)
      | some bs2 =>
        rw [hr] at h
        simp only [Option.map_some', Option.some.injEq] at h
        subst h
        simp [List.forall_mem_cons, hc, ih bs2 hr, Bool.and_eq_true]

/-- The disjunction of an evaluated condition list is true exactly when
some condition evaluated to true. -/
theorem eval_conditions_any_iff (cs : List Condition) (e : Email) (now : Int)
    (bs : List Bool) (h : eval_conditions cs e now = some bs) :
    (bs.any id = true ↔ ∃ c ∈ cs, evaluate_condition c e now = some true) := by
  induction cs generalizing bs with
  | nil =>
    simp only [eval_conditions, Option.some.injEq] at h
    subst h
    simp
  | cons c rest ih =>
    simp only [eval_conditions] at h
    cases hc : evaluate_condition c e now with
    | none => rw [hc] at h; exact absurd h (by simp)
    | some b =>
      rw [hc] at h
      cases hr : eval_conditions rest e now with
      | none => rw [hr] at h; exact absurd h (by simp)
      | some bs2 =>
        rw [hr] at h
        simp only [Option.map_some', Option.some.injEq] at h
        subst h
        simp [List.exists_mem_cons_iff, hc, ih bs2 hr, Bool.or_eq_true]

/-- The state-passing condition-list evaluator computes the pure one and
returns the message unchanged. -/
theorem eval_conditions_st_eq (cs : List Condition) (now : Int) (e : Email) :
    eval_conditions_st cs now e = (eval_conditions cs e now, e) := by
  induction cs with
  | nil => rfl
  | cons c rest ih =>
    simp only [eval_conditions_st, evaluate_condition_st, eval_conditions, ih]
    cases evaluate_condition c e now <;> simp [ih]

/-- The state-passing rule evaluator computes the pure one and returns
the message unchanged. -/
theorem evaluate_rule_st_eq (r : Rule) (now : Int) (e : Email) :
    evaluate_rule_st r now e = (evaluate_rule r e now, e) := by
  simp only [evaluate_rule_st, evaluate_rule, eval_conditions_st_eq]
  split
  · rfl
  · cases eval_conditions r.conditions e now
    · rfl
    · by_cases hall : (pyLower (r.predicate.getD "all") == "all") = true
      · simp [hall]
      · by_cases hany : (pyLower (r.predicate.getD "all") == "any") = true
        · simp [hall, hany]
        · simp [hall, hany]

/-- C4: a rule whose conditions list is empty evaluates to false on every
message, whatever its combination predicate is. -/
theorem empty_conditions_never_match (r : Rule) (e : Email) (now : Int)
    (h : r.conditions = []) : evaluate_rule r e now = some false := by
  simp [evaluate_rule, h]

/-- Witness for C4 at the concrete rule with no conditions and an unknown
combination predicate. -/
theorem empty_conditions_never_match_witness :
    ruleNoConds.conditions = [] ∧ evaluate_rule ruleNoConds {} 0 = some false :=
  ⟨rfl, empty_conditions_never_match ruleNoConds {} 0 rfl⟩

/-- C8: rule evaluation never mutates the message (the state-passing
evaluator returns it unchanged, next to the pure evaluator's result), and
evaluating the same rule against the same message a second time yields
the same boolean. -/
theorem rule_eval_no_mutation (r : Rule) (e : Email) (now : Int) :
    evaluate_rule_st r now e = (evaluate_rule r e now, e) ∧
    (evaluate_rule_st r now ((evaluate_rule_st r now e).2)).1 =
      (evaluate_rule_st r now e).1 := by
  refine ⟨evaluate_rule_st_eq r now e, ?_⟩
  rw [evaluate_rule_st_eq r now e]
  show (evaluate_rule_st r now e).1 = (evaluate_rule r e now, e).1
  rw [evaluate_rule_st_eq r now e]

/-- The string-predicate block always returns a boolean. -/
theorem string_predicates_isSome (p : String) (v : JsonVal) (x : String) :
    ∃ b : Bool, string_predicates p v x = some b := by
  unfold string_predicates
  by_cases h1 : (p == "contains") = true
  · exact ⟨strOccurs (pyLower v.toStr) x, by simp [h1]⟩
  by_cases h2 : (p == "does_not_contain" || p == "not_contains") = true
  · exact ⟨!(strOccurs (pyLower v.toStr) x), by simp [h1, h2]⟩
  by_cases h3 : (p == "equals") = true
  · exact ⟨x == pyLower v.toStr, by simp [h1, h2, h3]⟩
  by_cases h4 : (p == "does_not_equal" || p == "not_equals") = true
  · exact ⟨x != pyLower v.toStr, by simp [h1, h2, h3, h4]⟩
  · exact ⟨false, by simp [h1, h2, h3, h4]⟩

/-- The string-predicate block falls back to `False` on a predicate
outside its recognized set. -/
theorem string_predicates_unknown (p : String) (v : JsonVal) (x : String)
    (h : p ∉ (["contains", "does_not_contain", "not_contains", "equals",
      "does_not_equal", "not_equals"] : List String)) :
    string_predicates p v x = some false := by
  simp only [List.mem_cons, List.not_mem_nil, or_false, not_or] at h
  obtain ⟨h1, h2, h3, h4, h5, h6⟩ := h
  simp [string_predicates, beq_iff_eq, h1, h2, h3, h4, h5, h6]

/-- A numeric value never takes the threshold computation into the
`TypeError` outcome. -/
theorem threshold_calc_num (v : Int) (u : String) (now : Int) :
    threshold_calc (JsonVal.num v) u now = ThresholdResult.unknownUnit ∨
    ∃ th, threshold_calc (JsonVal.num v) u now = ThresholdResult.ok th := by
  unfold threshold_calc
  by_cases h1 : (u == "days") = true
  · exact Or.inr ⟨now - v, by simp [h1]⟩
  by_cases h2 : (u == "months") = true
  · exact Or.inr ⟨now - v * 30, by simp [h1, h2]⟩
  · exact Or.inl (by simp [h1, h2])

/-- With a numeric value, the date evaluator always returns a boolean. -/
theorem evaluate_date_condition_isSome (c : Condition) (e : Email) (now : Int)
    (v : Int) (hv : c.value.getD (JsonVal.num 0) = JsonVal.num v) :
    ∃ b : Bool, evaluate_date_condition c e now = some b := by
  simp only [evaluate_date_condition, hv]
  cases dateOf e.date_received with
  | none => exact ⟨false, rfl⟩
  | some d =>
    rcases threshold_calc_num v (pyLower (c.unit.getD "days")) now with h | ⟨th, h⟩ <;>
      rw [h]
    · exact ⟨false, rfl⟩
    · by_cases hp1 : (pyLower (c.predicate.getD "") == "less_than") = true
      · exact ⟨decide (d > th), by simp [hp1]⟩
      by_cases hp2 : (pyLower (c.predicate.getD "") == "greater_than") = true
      · exact ⟨decide (d < th), by simp [hp1, hp2]⟩
      · exact ⟨false, by simp [hp1, hp2]⟩

/-- C1: with a resolvable received date `d` and a numeric value `v`, the
date evaluator compares `d` against the threshold `now - v` days (or
`now - v * 30` days for unit `months`): `less_than` holds exactly when
the message is newer than the threshold and `greater_than` exactly when
it is older; a message received now satisfies `less_than 1 day`, one
received 40 days ago satisfies `greater_than 30 days` and fails
`less_than 30 days`. -/
theorem date_threshold_semantics (c : Condition) (e : Email) (now d v : Int)
    (hd : dateOf e.date_received = some d)
    (hv : c.value.getD (JsonVal.num 0) = JsonVal.num v) :
    (pyLower (c.unit.getD "days") = "days" →
      (pyLower (c.predicate.getD "") = "less_than" →
        (evaluate_date_condition c e now = some true ↔ now - v < d)) ∧
      (pyLower (c.predicate.getD "") = "greater_than" →
        (evaluate_date_condition c e now = some true ↔ d < now - v))) ∧
    (pyLower (c.unit.getD "days") = "months" →
      (pyLower (c.predicate.getD "") = "less_than" →
        (evaluate_date_condition c e now = some true ↔ now - v * 30 < d)) ∧
      (pyLower (c.predicate.getD "") = "greater_than" →
        (evaluate_date_condition c e now = some true ↔ d < now - v * 30))) ∧
    (∀ t : Int,
      evaluate_date_condition condLt1 { date_received := DateReceived.dtime t } t
        = some true) ∧
    (∀ t : Int,
      evaluate_date_condition condGt30 { date_received := DateReceived.dtime (t - 40) } t
        = some true) ∧
    (∀ t : Int,
      evaluate_date_condition condLt30 { date_received := DateReceived.dtime (t - 40) } t
        = some false) := by
  refine ⟨fun hu => ⟨fun hp => ?_, fun hp => ?_⟩, fun hu => ⟨fun hp => ?_, fun hp => ?_⟩,
    fun t => ?_, fun t => ?_, fun t => ?_⟩
  · simp [evaluate_date_condition, hd, hv, threshold_calc, hu, hp, gt_iff_lt]
  · simp [evaluate_date_condition, hd, hv, threshold_calc, hu, hp]
  · simp [evaluate_date_condition, hd, hv, threshold_calc, hu, hp, gt_iff_lt]
  · simp [evaluate_date_condition, hd, hv, threshold_calc, hu, hp]
  · simp [evaluate_date_condition, condLt1, threshold_calc, dateOf,
      show pyLower "days" = "days" from rfl,
      show pyLower "less_than" = "less_than" from rfl]
  · simp [evaluate_date_condition, condGt30, threshold_calc, dateOf,
      show pyLower "days" = "days" from rfl,
      show pyLower "greater_than" = "greater_than" from rfl]
  · simp [evaluate_date_condition, condLt30, threshold_calc, dateOf,
      show pyLower "days" = "days" from rfl,
      show pyLower "less_than" = "less_than" from rfl]

/-- Witness for C1: the general threshold law applied to a message
received 40 days before `now = 0` under `greater_than 30 days`. -/
theorem date_threshold_semantics_witness :
    dateOf (Email.date_received { date_received := DateReceived.dtime (-40) })
      = some (-40) ∧
    condGt30.value.getD (JsonVal.num 0) = JsonVal.num 30 ∧
    pyLower (condGt30.unit.getD "days") = "days" ∧
    pyLower (condGt30.predicate.getD "") = "greater_than" ∧
    (evaluate_date_condition condGt30 { date_received := DateReceived.dtime (-40) } 0
        = some true ↔ (-40 : Int) < 0 - 30) :=
  ⟨rfl, rfl, rfl, rfl,
    ((date_threshold_semantics condGt30 { date_received := DateReceived.dtime (-40) }
      0 (-40) 30 rfl rfl).1 rfl).2 rfl⟩

/-- C2: on a rule with at least one condition, all of whose conditions
evaluate to a boolean, the combination predicate `all` matches exactly
when every condition does, `any` exactly when at least one does, and any
other combination predicate never matches; on the concrete pair
(true, false), `all` yields false and `any` yields true. -/
theorem rule_combination_semantics (r : Rule) (e : Email) (now : Int)
    (hne : r.conditions ≠ [])
    (hv : ∀ c ∈ r.conditions, (evaluate_condition c e now).isSome) :
    (pyLower (r.predicate.getD "all") = "all" →
      (evaluate_rule r e now = some true ↔
        ∀ c ∈ r.conditions, evaluate_condition c e now = some true)) ∧
    (pyLower (r.predicate.getD "all") = "any" →
      (evaluate_rule r e now = some true ↔
        ∃ c ∈ r.conditions, evaluate_condition c e now = some true)) ∧
    (pyLower (r.predicate.getD "all") ≠ "all" →
      pyLower (r.predicate.getD "all") ≠ "any" →
      evaluate_rule r e now = some false) ∧
    evaluate_condition condTrue {} 0 = some true ∧
    evaluate_condition condFalse {} 0 = some false ∧
    evaluate_rule ruleAllTF {} 0 = some false ∧
    evaluate_rule ruleAnyTF {} 0 = some true := by
  obtain ⟨bs, hbs⟩ := eval_conditions_isSome r.conditions e now hv
  have hne' : r.conditions.isEmpty = false := by
    cases hcs : r.conditions with
    | nil => exact absurd hcs hne
    | cons a l => rfl
  refine ⟨?_, ?_, ?_, by decide, by decide, by decide, by decide⟩
  · intro hall
    have hrule : evaluate_rule r e now = some (bs.all id) := by
      simp [evaluate_rule, hne', hbs, hall]
    rw [hrule]
    simp only [Option.some.injEq]
    exact eval_conditions_all_iff r.conditions e now bs hbs
  · intro hany
    by_cases hall : pyLower (r.predicate.getD "all") = "all"
    · have hrule : evaluate_rule r e now = some (bs.all id) := by
        simp [evaluate_rule, hne', hbs, hall]
      rw [hall] at hany
      exact absurd hany.symm (by decide)
    · have hrule : evaluate_rule r e now = some (bs.any id) := by
        simp [evaluate_rule, hne', hbs, beq_iff_eq, hall, hany]
      rw [hrule]
      simp only [Option.some.injEq]
      exact eval_conditions_any_iff r.conditions e now bs hbs
  · intro hna hnb
    simp [evaluate_rule, hne', hbs, beq_iff_eq, hna, hnb]

/-- Witness for C2 at the two-condition scenario rule with predicate
`any`. -/
theorem rule_combination_semantics_witness :
    ruleAnyTF.conditions ≠ [] ∧
    (∀ c ∈ ruleAnyTF.conditions, (evaluate_condition c {} 0).isSome) ∧
    (pyLower (ruleAnyTF.predicate.getD "all") = "any" →
      (evaluate_rule ruleAnyTF {} 0 = some true ↔
        ∃ c ∈ ruleAnyTF.conditions, evaluate_condition c {} 0 = some true)) :=
  ⟨by decide, by decide,
    (rule_combination_semantics ruleAnyTF {} 0 (by decide) (by decide)).2.1⟩

/-- A date condition with an unrecognized unit and a numeric value. -/
def condBadUnit : Condition :=
  { field := some "date_received", predicate := some "less_than",
    value := some (JsonVal.num 5), unit := some "fortnights" }

/-- C7 counterexample: on a message with a resolvable date, a date
condition whose predicate is unknown but whose value is the string `"7"`
does not produce `False` — the threshold computation raises `TypeError`
(modelled `none`) before the predicate is ever inspected, refuting "for
every unknown date predicate the result is false" as universally
stated. -/
theorem date_unknown_pred_string_value_raises :
    evaluate_date_condition condBadPred { date_received := DateReceived.dtime 0 } 0
        = Option.none ∧
    evaluate_date_condition condBadPred { date_received := DateReceived.dtime 0 } 0
        ≠ some false := by decide

/-- C7 (amended): the date evaluator fails closed — returns `False` — for
a missing date, an unparsable date string, and an unknown unit; for an
unknown date predicate it returns `False` provided the condition's value
is numeric (with a string value the threshold computation raises before
the predicate check). -/
theorem date_eval_fail_closed (c : Condition) (e : Email) (now : Int) :
    (e.date_received = DateReceived.missing →
      evaluate_date_condition c e now = some false) ∧
    (e.date_received = DateReceived.dstr Option.none →
      evaluate_date_condition c e now = some false) ∧
    (pyLower (c.unit.getD "days") ≠ "days" → pyLower (c.unit.getD "days") ≠ "months" →
      evaluate_date_condition c e now = some false) ∧
    (∀ v : Int, c.value.getD (JsonVal.num 0) = JsonVal.num v →
      pyLower (c.predicate.getD "") ≠ "less_than" →
      pyLower (c.predicate.getD "") ≠ "greater_than" →
      evaluate_date_condition c e now = some false) := by
  refine ⟨fun h => ?_, fun h => ?_, fun h1 h2 => ?_, fun v hv hp1 hp2 => ?_⟩
  · simp [evaluate_date_condition, h, dateOf]
  · simp [evaluate_date_condition, h, dateOf]
  · simp only [evaluate_date_condition]
    cases dateOf e.date_received
    · rfl
    · simp [threshold_calc, beq_iff_eq, h1, h2]
  · simp only [evaluate_date_condition, hv]
    cases dateOf e.date_received
    · rfl
    · rcases threshold_calc_num v (pyLower (c.unit.getD "days")) now with h | ⟨th, h⟩ <;>
        simp [h, beq_iff_eq, hp1, hp2]

/-- Witness for C7 at the concrete unknown-unit condition. -/
theorem date_eval_fail_closed_witness :
    pyLower (condBadUnit.unit.getD "days") ≠ "days" ∧
    pyLower (condBadUnit.unit.getD "days") ≠ "months" ∧
    evaluate_date_condition condBadUnit { date_received := DateReceived.dtime 0 } 0
      = some false :=
  ⟨by decide, by decide,
    (date_eval_fail_closed condBadUnit { date_received := DateReceived.dtime 0 } 0).2.2.1
      (by decide) (by decide)⟩

/-- C3 counterexample: a `date_received` condition whose value is the
JSON string `"30"` makes `evaluate_condition` raise an uncaught
`TypeError` (modelled `none`) on any message with a resolvable date — it
neither returns a boolean nor resolves the error locally to false,
refuting "condition evaluation is total and never raises" as universally
stated. -/
theorem condition_eval_raises_on_string_date_value :
    evaluate_condition condStrDate { date_received := DateReceived.dtime 0 } 0
        = Option.none ∧
    evaluate_condition condStrDate { date_received := DateReceived.dtime 0 } 0
        ≠ some true ∧
    evaluate_condition condStrDate { date_received := DateReceived.dtime 0 } 0
        ≠ some false := by decide

/-- C3 (amended): condition evaluation is total — returns a boolean,
never raises — for every condition whose value is numeric whenever its
field is `date_received` (in particular for every condition on a string
field); an unknown field evaluates to false, and so does an unknown
predicate on any of the string fields. -/
theorem condition_eval_total (c : Condition) (e : Email) (now : Int)
    (hnum : pyLower (c.field.getD "") = "date_received" →
      ∃ v : Int, c.value.getD (JsonVal.num 0) = JsonVal.num v) :
    (∃ b : Bool, evaluate_condition c e now = some b) ∧
    (pyLower (c.field.getD "") ∉
        (["from", "to", "subject", "message", "body", "date_received"] : List String) →
      evaluate_condition c e now = some false) ∧
    (pyLower (c.field.getD "") ∈
        (["from", "to", "subject", "message", "body"] : List String) →
      pyLower (c.predicate.getD "") ∉
        (["contains", "does_not_contain", "not_contains", "equals",
          "does_not_equal", "not_equals"] : List String) →
      evaluate_condition c e now = some false) := by
  refine ⟨?_, ?_, ?_⟩
  · by_cases h1 : pyLower (c.field.getD "") = "from"
    · obtain ⟨b, hb⟩ := string_predicates_isSome (pyLower (c.predicate.getD ""))
        (c.value.getD (JsonVal.str "")) (pyLower e.sender)
      exact ⟨b, by simp [evaluate_condition, h1, hb]⟩
    by_cases h2 : pyLower (c.field.getD "") = "to"
    · obtain ⟨b, hb⟩ := string_predicates_isSome (pyLower (c.predicate.getD ""))
        (c.value.getD (JsonVal.str "")) (pyLower e.recipient)
      exact ⟨b, by simp [evaluate_condition, beq_iff_eq, h1, h2, hb]⟩
    by_cases h3 : pyLower (c.field.getD "") = "subject"
    · obtain ⟨b, hb⟩ := string_predicates_isSome (pyLower (c.predicate.getD ""))
        (c.value.getD (JsonVal.str "")) (pyLower e.subject)
      exact ⟨b, by simp [evaluate_condition, beq_iff_eq, h1, h2, h3, hb]⟩
    by_cases h4 : pyLower (c.field.getD "") = "message"
    · obtain ⟨b, hb⟩ := string_predicates_isSome (pyLower (c.predicate.getD ""))
        (c.value.getD (JsonVal.str ""))
        (pyLower ((e.body_text.getD "") ++ " " ++ (e.body_html.getD "")))
      exact ⟨b, by simp [evaluate_condition, beq_iff_eq, h1, h2, h3, h4, hb]⟩
    by_cases h5 : pyLower (c.field.getD "") = "body"
    · obtain ⟨b, hb⟩ := string_predicates_isSome (pyLower (c.predicate.getD ""))
        (c.value.getD (JsonVal.str ""))
        (pyLower ((e.body_text.getD "") ++ " " ++ (e.body_html.getD "")))
      exact ⟨b, by simp [evaluate_condition, beq_iff_eq, h1, h2, h3, h4, h5, hb]⟩
    by_cases h6 : pyLower (c.field.getD "") = "date_received"
    · obtain ⟨v, hv⟩ := hnum h6
      obtain ⟨b, hb⟩ := evaluate_date_condition_isSome c e now v hv
      exact ⟨b, by simp [evaluate_condition, beq_iff_eq, h1, h2, h3, h4, h5, h6, hb]⟩
    · exact ⟨false, by simp [evaluate_condition, beq_iff_eq, h1, h2, h3, h4, h5, h6]⟩
  · intro hf
    simp only [List.mem_cons, List.not_mem_nil, or_false, not_or] at hf
    obtain ⟨h1, h2, h3, h4, h5, h6⟩ := hf
    simp [evaluate_condition, beq_iff_eq, h1, h2, h3, h4, h5, h6]
  · intro hf hp
    simp only [List.mem_cons, List.not_mem_nil, or_false] at hf
    rcases hf with h | h | h | h | h
    · rw [show evaluate_condition c e now = string_predicates (pyLower (c.predicate.getD ""))
          (c.value.getD (JsonVal.str "")) (pyLower e.sender) from by
        simp [evaluate_condition, h]]
      exact string_predicates_unknown _ _ _ hp
    · rw [show evaluate_condition c e now = string_predicates (pyLower (c.predicate.getD ""))
          (c.value.getD (JsonVal.str "")) (pyLower e.recipient) from by
        simp [evaluate_condition, h]]
      exact string_predicates_unknown _ _ _ hp
    · rw [show evaluate_condition c e now = string_predicates (pyLower (c.predicate.getD ""))
          (c.value.getD (JsonVal.str "")) (pyLower e.subject) from by
        simp [evaluate_condition, h]]
      exact string_predicates_unknown _ _ _ hp
    · rw [show evaluate_condition c e now = string_predicates (pyLower (c.predicate.getD ""))
          (c.value.getD (JsonVal.str ""))
          (pyLower ((e.body_text.getD "") ++ " " ++ (e.body_html.getD ""))) from by
        simp [evaluate_condition, h]]
      exact string_predicates_unknown _ _ _ hp
    · rw [show evaluate_condition c e now = string_predicates (pyLower (c.predicate.getD ""))
          (c.value.getD (JsonVal.str ""))
          (pyLower ((e.body_text.getD "") ++ " " ++ (e.body_html.getD ""))) from by
        simp [evaluate_condition, h]]
      exact string_predicates_unknown _ _ _ hp

/-- Witness for C3 at the numeric-valued date condition
`greater_than 30 days`. -/
theorem condition_eval_total_witness :
    (pyLower (condGt30.field.getD "") = "date_received" →
      ∃ v : Int, condGt30.value.getD (JsonVal.num 0) = JsonVal.num v) ∧
    (∃ b : Bool,
      evaluate_condition condGt30 { date_received := DateReceived.dtime 0 } 0 = some b) :=
  ⟨fun _ => ⟨30, rfl⟩,
    (condition_eval_total condGt30 { date_received := DateReceived.dtime 0 } 0
      (fun _ => ⟨30, rfl⟩)).1⟩

/-- On predicate `contains`, the string-predicate block is the substring
test. -/
theorem string_predicates_contains (v : JsonVal) (x : String) :
    string_predicates "contains" v x = some (strOccurs (pyLower v.toStr) x) := rfl

/-- On predicate `does_not_contain`, the string-predicate block is the
negated substring test. -/
theorem string_predicates_not_contains (v : JsonVal) (x : String) :
    string_predicates "does_not_contain" v x
      = some (!(strOccurs (pyLower v.toStr) x)) := rfl

/-- C9: on every string field, `contains` and `does_not_contain` are
complementary — the latter returns the boolean negation of the former,
so exactly one of the two evaluates true — and at the empty-string
boundary `"" contains ""` is true and the matching `does_not_contain` is
false. -/
theorem contains_complementary (fld : Option String) (v : Option JsonVal)
    (u : Option String) (e : Email) (now : Int)
    (hf : pyLower (fld.getD "") ∈
      (["from", "to", "subject", "message", "body"] : List String)) :
    (evaluate_condition
        { field := fld, predicate := some "does_not_contain", value := v, unit := u } e now =
      (evaluate_condition
        { field := fld, predicate := some "contains", value := v, unit := u } e now).map
          (fun b => !b)) ∧
    (evaluate_condition
        { field := fld, predicate := some "contains", value := v, unit := u } e now).isSome ∧
    (evaluate_condition
        { field := fld, predicate := some "contains", value := v, unit := u } e now
          = some true ↔
      ¬ evaluate_condition
          { field := fld, predicate := some "does_not_contain", value := v, unit := u } e now
            = some true) ∧
    evaluate_condition emptyContains {} 0 = some true ∧
    evaluate_condition emptyNotContains {} 0 = some false := by
  have hkey : ∃ t : String,
      evaluate_condition
          { field := fld, predicate := some "contains", value := v, unit := u } e now
        = some (strOccurs (pyLower (v.getD (JsonVal.str "")).toStr) t) ∧
      evaluate_condition
          { field := fld, predicate := some "does_not_contain", value := v, unit := u } e now
        = some (!(strOccurs (pyLower (v.getD (JsonVal.str "")).toStr) t)) := by
    simp only [List.mem_cons, List.not_mem_nil, or_false] at hf
    rcases hf with h | h | h | h | h
    · exact ⟨pyLower e.sender,
        by simp [evaluate_condition, h,
          show pyLower "contains" = "contains" from rfl, string_predicates_contains],
        by simp [evaluate_condition, h,
          show pyLower "does_not_contain" = "does_not_contain" from rfl,
          string_predicates_not_contains]⟩
    · exact ⟨pyLower e.recipient,
        by simp [evaluate_condition, h,
          show pyLower "contains" = "contains" from rfl, string_predicates_contains],
        by simp [evaluate_condition, h,
          show pyLower "does_not_contain" = "does_not_contain" from rfl,
          string_predicates_not_contains]⟩
    · exact ⟨pyLower e.subject,
        by simp [evaluate_condition, h,
          show pyLower "contains" = "contains" from rfl, string_predicates_contains],
        by simp [evaluate_condition, h,
          show pyLower "does_not_contain" = "does_not_contain" from rfl,
          string_predicates_not_contains]⟩
    · exact ⟨pyLower ((e.body_text.getD "") ++ " " ++ (e.body_html.getD "")),
        by simp [evaluate_condition, h,
          show pyLower "contains" = "contains" from rfl, string_predicates_contains],
        by simp [evaluate_condition, h,
          show pyLower "does_not_contain" = "does_not_contain" from rfl,
          string_predicates_not_contains]⟩
    · exact ⟨pyLower ((e.body_text.getD "") ++ " " ++ (e.body_html.getD "")),
        by simp [evaluate_condition, h,
          show pyLower "contains" = "contains" from rfl, string_predicates_contains],
        by simp [evaluate_condition, h,
          show pyLower "does_not_contain" = "does_not_contain" from rfl,
          string_predicates_not_contains]⟩
  obtain ⟨t, h1, h2⟩ := hkey
  rw [h1, h2]
  refine ⟨by simp, by simp, ?_, by decide, by decide⟩
  cases strOccurs (pyLower (v.getD (JsonVal.str "")).toStr) t <;> simp

/-- Witness for C9 on the `subject` field with a concrete message. -/
theorem contains_complementary_witness :
    pyLower ((some "subject" : Option String).getD "") ∈
      (["from", "to", "subject", "message", "body"] : List String) ∧
    (evaluate_condition
        { field := some "subject", predicate := some "contains",
          value := some (JsonVal.str "urgent"), unit := Option.none }
        { subject := "Urgent: respond" } 0).isSome :=
  ⟨by decide,
    (contains_complementary (some "subject") (some (JsonVal.str "urgent")) Option.none
      { subject := "Urgent: respond" } 0 (by decide)).2.1⟩

/-- C10: field, predicate and action-type names are matched after
lower-casing, so the spellings `FROM`, `Contains` and `MARK_READ` behave
exactly like their lower-case forms, and the spellings `not_contains` /
`not_equals` are interchangeable with `does_not_contain` /
`does_not_equal` on every condition and message. -/
theorem name_dispatch_case_insensitive :
    (∀ (v : Option JsonVal) (u : Option String) (e : Email) (now : Int),
      evaluate_condition
          { field := some "FROM", predicate := some "Contains", value := v, unit := u } e now =
        evaluate_condition
          { field := some "from", predicate := some "contains", value := v, unit := u } e now) ∧
    (∀ (mb : Option String) (e : Email) (p : Provider),
      execute_action { type := some "MARK_READ", mailbox := mb } e p =
        execute_action { type := some "mark_read", mailbox := mb } e p) ∧
    (∀ (fld : Option String) (v : Option JsonVal) (u : Option String) (e : Email) (now : Int),
      evaluate_condition
          { field := fld, predicate := some "not_contains", value := v, unit := u } e now =
        evaluate_condition
          { field := fld, predicate := some "does_not_contain", value := v, unit := u } e now) ∧
    (∀ (fld : Option String) (v : Option JsonVal) (u : Option String) (e : Email) (now : Int),
      evaluate_condition
          { field := fld, predicate := some "not_equals", value := v, unit := u } e now =
        evaluate_condition
          { field := fld, predicate := some "does_not_equal", value := v, unit := u } e now) :=
  ⟨fun _ _ _ _ => rfl, fun _ _ _ => rfl, fun _ _ _ _ _ => rfl, fun _ _ _ _ _ => rfl⟩

/-- C5: a move action issues exactly one label update: it fetches the
current labels, then sends a single `modify` whose add-set is the
upper-cased target mailbox and whose remove-set is exactly the current
labels among INBOX/SPAM for target TRASH, among TRASH/SPAM for target
INBOX, and empty for any other target; moving to TRASH a message labeled
INBOX and UNREAD adds TRASH and removes only INBOX. -/
theorem move_issues_single_update (gid mailbox : String) (p : Provider)
    (L : List String) (h : p.getLabels gid = Except.ok L) :
    (∃ b : Bool, move_message gid mailbox p =
      (b, [GmailCall.getMsg gid,
           GmailCall.modify gid [pyUpper mailbox] (removePolicy (pyUpper mailbox) L)])) ∧
    (∀ l : String, l ∈ removePolicy (pyUpper mailbox) L ↔
      ((pyUpper mailbox = "TRASH" ∧ l ∈ L ∧ (l = "INBOX" ∨ l = "SPAM")) ∨
       (pyUpper mailbox = "INBOX" ∧ l ∈ L ∧ (l = "TRASH" ∨ l = "SPAM")))) ∧
    (pyUpper mailbox ≠ "TRASH" → pyUpper mailbox ≠ "INBOX" →
      removePolicy (pyUpper mailbox) L = []) ∧
    move_message "m1" "TRASH" provInboxUnread
      = (true, [GmailCall.getMsg "m1", GmailCall.modify "m1" ["TRASH"] ["INBOX"]]) ∧
    move_message "m1" "Important" provInboxUnread
      = (true, [GmailCall.getMsg "m1", GmailCall.modify "m1" ["IMPORTANT"] []]) := by
  refine ⟨?_, ?_, ?_, by decide, by decide⟩
  · cases hm : p.modifyOutcome gid [pyUpper mailbox] (removePolicy (pyUpper mailbox) L) with
    | error m => exact ⟨false, by simp [move_message, h, hm]⟩
    | ok x => exact ⟨true, by simp [move_message, h, hm]⟩
  · intro l
    by_cases h1 : pyUpper mailbox = "TRASH"
    · simp [removePolicy, h1, List.mem_filter]
    · by_cases h2 : pyUpper mailbox = "INBOX"
      · simp [removePolicy, beq_iff_eq, h1, h2, List.mem_filter]
      · simp [removePolicy, beq_iff_eq, h1, h2]
  · intro h1 h2
    simp [removePolicy, beq_iff_eq, h1, h2]

/-- Witness for C5: moving to TRASH on the provider whose message is
labeled INBOX and UNREAD. -/
theorem move_issues_single_update_witness :
    provInboxUnread.getLabels "m1" = Except.ok ["INBOX", "UNREAD"] ∧
    (∃ b : Bool, move_message "m1" "TRASH" provInboxUnread =
      (b, [GmailCall.getMsg "m1",
           GmailCall.modify "m1" [pyUpper "TRASH"]
             (removePolicy (pyUpper "TRASH") ["INBOX", "UNREAD"])])) :=
  ⟨rfl,
    (move_issues_single_update "m1" "TRASH" provInboxUnread ["INBOX", "UNREAD"] rfl).1⟩

/-- C6: an action on a message without a Gmail message id is reported as
failed with no provider call and does not remove the following actions
from the loop; the action loop always attempts every listed action; an
unknown action type is reported as failed with no provider call; and
when every provider call raises, the dispatcher still returns a failure
flag rather than propagating. -/
theorem action_dispatch_nonfatal (a : RuleAction) (e : Email) (p : Provider)
    (rest : List RuleAction) (h : noMessageId e.gmail_message_id = true) :
    execute_action a e p = (false, []) ∧
    run_actions (a :: rest) e p = (false, []) :: run_actions rest e p ∧
    (∀ (acts : List RuleAction) (e2 : Email) (q : Provider),
      (run_actions acts e2 q).length = acts.length) ∧
    (∀ (a2 : RuleAction) (e2 : Email) (q : Provider),
      pyLower (a2.type.getD "") ∉
        (["mark_read", "mark_as_read", "mark_unread", "mark_as_unread", "move"] :
          List String) →
      execute_action a2 e2 q = (false, [])) ∧
    (∀ (a2 : RuleAction) (e2 : Email) (q : Provider),
      (∀ id, ∃ m, q.getLabels id = Except.error m) →
      (∀ id add rem, ∃ m, q.modifyOutcome id add rem = Except.error m) →
      (execute_action a2 e2 q).1 = false) := by
  refine ⟨?_, ?_, ?_, ?_, ?_⟩
  · simp [execute_action, h]
  · simp [run_actions, execute_action, h]
  · intro acts e2 q
    simp [run_actions]
  · intro a2 e2 q hp
    simp only [List.mem_cons, List.not_mem_nil, or_false, not_or] at hp
    obtain ⟨h1, h2, h3, h4, h5⟩ := hp
    by_cases hid : noMessageId e2.gmail_message_id
    · simp [execute_action, hid]
    · simp [execute_action, beq_iff_eq, hid, h1, h2, h3, h4, h5]
  · intro a2 e2 q hg hm
    by_cases hid : noMessageId e2.gmail_message_id
    · simp [execute_action, hid]
    · by_cases t1 : (pyLower (a2.type.getD "") == "mark_read"
          || pyLower (a2.type.getD "") == "mark_as_read") = true
      · obtain ⟨m, hm1⟩ := hm (e2.gmail_message_id.getD "") [] ["UNREAD"]
        simp [execute_action, hid, t1, mark_as_read, hm1]
      by_cases t2 : (pyLower (a2.type.getD "") == "mark_unread"
          || pyLower (a2.type.getD "") == "mark_as_unread") = true
      · obtain ⟨m, hm1⟩ := hm (e2.gmail_message_id.getD "") ["UNREAD"] []
        simp [execute_action, hid, t1, t2, mark_as_unread, hm1]
      by_cases t3 : (pyLower (a2.type.getD "") == "move") = true
      · obtain ⟨m, hg1⟩ := hg (e2.gmail_message_id.getD "")
        simp [execute_action, hid, t1, t2, t3, move_message, hg1]
      · simp [execute_action, hid, t1, t2, t3]

/-- Witness for C6 at a mark-read action on a message with no Gmail
message id. -/
theorem action_dispatch_nonfatal_witness :
    noMessageId (Email.gmail_message_id {}) = true ∧
    execute_action { type := some "mark_read" } {} provInboxUnread = (false, []) :=
  ⟨rfl,
    (action_dispatch_nonfatal { type := some "mark_read" } {} provInboxUnread [] rfl).1⟩
